import Mathlib

/-!
A shallow embedding of the channel-router gossip handling and of the UTXO
sweeper of this repository (files routing/router.go and sweep/sweeper.go),
with theorems settling the frozen claims about them.

Conventions: Go machine integers are embedded as `Nat` with explicit
`% 2 ^ 32` where uint32 wrap-around matters; `time.Time` values are
naturals, and `time.Since(ts) > expiry` is `ts + expiry < now`;
Go interface calls to external collaborators (graph store, chain oracle,
fee estimator, sweeper store) are passed in as explicit arguments holding
the values those calls return.
-/

namespace LndSpec2Proof

namespace Routing

/-- Result tuple of the graph store query HasChannelEdge(chanID): the
stored timestamps of the two directed policies, whether the channel is in
the main edge index, and whether it is marked zombie (router.go lines
1233-1234 and 2256-2257 both destructure exactly this tuple). The src
itself shows that the two booleans are independent: IsKnownEdge
(router.go line 2246) returns `exists || isZombie`. -/
structure ChanEdgeQuery where
  edge1Timestamp : Nat
  edge2Timestamp : Nat
  exist : Bool
  isZombie : Bool
  deriving Repr, DecidableEq

/-- Verdict of processUpdate on a *channeldb.ChannelEdgePolicy message
(router.go lines 1226-1303): ErrIgnored for a stale zombie update (line
1246), ErrIgnored for an unknown channel (line 1255), ErrOutdated for a
timestamp that is not strictly newer than the stored one (lines 1274 and
1286), otherwise the policy is stored via UpdateEdgePolicy (line 1296). -/
inductive PolicyVerdict where
  | ignoredZombie
  | ignoredUnknown
  | outdated
  | applied
  deriving Repr, DecidableEq

/-- processUpdate, ChannelEdgePolicy case (router.go lines 1226-1300).
`flags % 2` is the lnwire.ChanUpdateDirection bit (bit 0 of the channel
flags); the final `.applied` mirrors the fall-through of the Go switch
when neither direction case matches (dead, since `flags % 2 < 2`). -/
def processUpdateChanPolicy (pruneExpiry : Nat) (q : ChanEdgeQuery)
    (now ts flags : Nat) : PolicyVerdict :=
  if q.isZombie = true ∧ ts + pruneExpiry < now then .ignoredZombie
  else if q.exist = false then .ignoredUnknown
  else if flags % 2 = 0 then
    if ¬ (q.edge1Timestamp < ts) then .outdated else .applied
  else if flags % 2 = 1 then
    if ¬ (q.edge2Timestamp < ts) then .outdated else .applied
  else .applied

/-- IsStaleEdgePolicy (router.go lines 2253-2304). `flags / 2 % 2 = 1`
is the lnwire.ChanUpdateDisabled bit (bit 1 of the channel flags); the
final `false` mirrors the dead fall-through of the Go switch. -/
def IsStaleEdgePolicy (assumeChannelValid : Bool) (pruneExpiry : Nat)
    (q : ChanEdgeQuery) (now ts flags : Nat) : Bool :=
  if q.isZombie = true then
    if assumeChannelValid = true ∧ flags / 2 % 2 = 1 then true
    else decide (ts + pruneExpiry < now)
  else if q.exist = false then false
  else if flags % 2 = 0 then decide (¬ (q.edge1Timestamp < ts))
  else if flags % 2 = 1 then decide (¬ (q.edge2Timestamp < ts))
  else false

/-- One policy-update step of the per-channel state: processUpdate decides
the verdict and, only when it is `.applied`, UpdateEdgePolicy (router.go
line 1296) stores the new policy, so HasChannelEdge subsequently reports
the new timestamp for the direction the update addressed. -/
def applyPolicyUpdate (pruneExpiry : Nat) (q : ChanEdgeQuery)
    (now ts flags : Nat) : ChanEdgeQuery × PolicyVerdict :=
  match processUpdateChanPolicy pruneExpiry q now ts flags with
  | .applied =>
      if flags % 2 = 0 then ({ q with edge1Timestamp := ts }, .applied)
      else ({ q with edge2Timestamp := ts }, .applied)
  | v => (q, v)

/-- Outcome of the networkHandler new-block case (router.go lines
944-1006): the best height afterwards, whether Graph.PruneGraph was
invoked, and whether a topology notification was sent. -/
structure NewBlockOutcome where
  newBestHeight : Nat
  pruneGraphCalled : Bool
  notifiedTopology : Bool
  deriving Repr, DecidableEq

/-- networkHandler, new-block case (router.go lines 944-1006). Heights
are uint32, so the contiguity test compares against `(best + 1) % 2^32`.
A non-contiguous block is skipped (line 961); otherwise bestHeight is
stored (line 967) before PruneGraph runs. `pruneOk` is whether PruneGraph
returned without error and `chansClosed` how many channels it closed; a
notification goes out only when pruning succeeded and closed at least one
channel (lines 989-1006). -/
def handleNewBlock (bestHeight height : Nat) (pruneOk : Bool)
    (chansClosed : Nat) : NewBlockOutcome :=
  if height ≠ (bestHeight + 1) % 2 ^ 32 then
    { newBestHeight := bestHeight
      pruneGraphCalled := false
      notifiedTopology := false }
  else
    { newBestHeight := height
      pruneGraphCalled := true
      notifiedTopology := pruneOk && decide (0 < chansClosed) }

/-- Claim C2, amended: restricted to channels not marked zombie,
IsStaleEdgePolicy(id, t, flags) is true exactly when submitting the
same-id, same-direction update with timestamp t through processUpdate
would return Outdated. (For zombie channels the two functions disagree:
see the counterexample.) -/
theorem claim_C2_theorem (av : Bool) (pruneExpiry : Nat) (q : ChanEdgeQuery)
    (now ts flags : Nat) (hz : q.isZombie = false) :
    (IsStaleEdgePolicy av pruneExpiry q now ts flags = true ↔
      processUpdateChanPolicy pruneExpiry q now ts flags = .outdated) := by
  simp only [IsStaleEdgePolicy, processUpdateChanPolicy, hz]
  split_ifs <;> simp_all

/-- Witness for claim C2: a concrete non-zombie channel state where the
equivalence is evaluated. -/
theorem claim_C2_witness :
    (IsStaleEdgePolicy false 14 ⟨5, 0, true, false⟩ 0 5 0 = true ↔
      processUpdateChanPolicy 14 ⟨5, 0, true, false⟩ 0 5 0 = .outdated) :=
  claim_C2_theorem false 14 ⟨5, 0, true, false⟩ 0 5 0 rfl

/-- Claim C2 counterexample: for a zombie channel with an update older
than the prune expiry (timestamp 0, expiry 14, now 100), IsStaleEdgePolicy
is true, yet processUpdate returns Ignored (stale zombie), not Outdated,
refuting the claimed equivalence. -/
theorem claim_C2_counterexample :
    IsStaleEdgePolicy false 14 ⟨0, 0, false, true⟩ 100 0 0 = true ∧
      processUpdateChanPolicy 14 ⟨0, 0, false, true⟩ 100 0 0 ≠ .outdated := by
  decide

/-- Claim C3, amended: an update for a channel absent from the main edge
index is never applied; a zombie update older than ChannelPruneExpiry is
rejected as stale; and a zombie update within ChannelPruneExpiry merely
passes the zombie-staleness check: it is applied exactly when the channel
is in the main edge index and the timestamp is strictly newer than the
stored one for its direction (in particular a zombie channel, which is
absent from the main edge index, has its fresh update rejected as
unknown rather than applied). -/
theorem claim_C3_theorem (pruneExpiry : Nat) (q : ChanEdgeQuery)
    (now ts flags : Nat) :
    (q.exist = false →
      processUpdateChanPolicy pruneExpiry q now ts flags ≠ .applied) ∧
    (q.isZombie = true → ts + pruneExpiry < now →
      processUpdateChanPolicy pruneExpiry q now ts flags = .ignoredZombie) ∧
    (q.isZombie = true → ¬ (ts + pruneExpiry < now) →
      (processUpdateChanPolicy pruneExpiry q now ts flags = .applied ↔
        q.exist = true ∧
          (if flags % 2 = 0 then q.edge1Timestamp < ts
           else q.edge2Timestamp < ts))) := by
  refine ⟨?_, ?_, ?_⟩ <;> intro h1 <;>
    simp only [processUpdateChanPolicy, h1] <;> split_ifs <;> simp_all

/-- Witness for claim C3: the three parts of the amended claim evaluated
at concrete channel states. -/
theorem claim_C3_witness :
    processUpdateChanPolicy 14 ⟨0, 0, true, true⟩ 100 0 0 = .ignoredZombie :=
  (claim_C3_theorem 14 ⟨0, 0, true, true⟩ 100 0 0).2.1 rfl (by decide)

/-- Claim C3 counterexample: a zombie channel (hence absent from the main
edge index, exist = false) receiving an update whose timestamp 5 is well
within the prune expiry (5 + 14 is not less than now = 10) is rejected as
unknown, not accepted and applied as the claim states. -/
theorem claim_C3_counterexample :
    processUpdateChanPolicy 14 ⟨0, 0, false, true⟩ 10 5 0 = .ignoredUnknown ∧
      processUpdateChanPolicy 14 ⟨0, 0, false, true⟩ 10 5 0 ≠ .applied := by
  decide

/-- Claim C5, amended: for an existing channel, an update not caught by
the zombie-staleness check whose timestamp is not strictly newer than
the stored timestamp of its direction is rejected with Outdated and
leaves the stored state unchanged; conversely an update rejected as
Outdated leaves the stored state unchanged and its timestamp is at most
(not necessarily strictly below) the stored timestamp of its direction;
an applied update has a timestamp strictly newer than the stored one and
replaces exactly the policy of its direction, so applied updates form a
strictly increasing-timestamp sequence and every stored timestamp is
greater than or equal to that of every update rejected as outdated for
the pair. -/
theorem claim_C5_theorem (pruneExpiry : Nat) (q : ChanEdgeQuery)
    (now ts flags : Nat) :
    (q.exist = true → ¬(q.isZombie = true ∧ ts + pruneExpiry < now) →
      ts ≤ (if flags % 2 = 0 then q.edge1Timestamp else q.edge2Timestamp) →
      (applyPolicyUpdate pruneExpiry q now ts flags).2 = .outdated ∧
        (applyPolicyUpdate pruneExpiry q now ts flags).1 = q) ∧
    ((applyPolicyUpdate pruneExpiry q now ts flags).2 = .outdated →
      (applyPolicyUpdate pruneExpiry q now ts flags).1 = q ∧
        ts ≤ (if flags % 2 = 0 then q.edge1Timestamp else q.edge2Timestamp)) ∧
    ((applyPolicyUpdate pruneExpiry q now ts flags).2 = .applied →
      (if flags % 2 = 0 then
        q.edge1Timestamp < ts ∧
          (applyPolicyUpdate pruneExpiry q now ts flags).1 =
            { q with edge1Timestamp := ts }
       else
        q.edge2Timestamp < ts ∧
          (applyPolicyUpdate pruneExpiry q now ts flags).1 =
            { q with edge2Timestamp := ts })) ∧
    ((applyPolicyUpdate pruneExpiry q now ts flags).2 ≠ .applied →
      (applyPolicyUpdate pruneExpiry q now ts flags).1 = q) := by
  constructor
  · intro hex hnz hts
    unfold applyPolicyUpdate processUpdateChanPolicy
    split_ifs <;> simp_all <;> omega
  · unfold applyPolicyUpdate processUpdateChanPolicy
    split_ifs <;> simp_all

/-- Witness for claim C5: a concrete non-strictly-newer update (stored
timestamp 7, update timestamp 6) of an existing non-zombie channel is
rejected as Outdated and leaves the state unchanged. -/
theorem claim_C5_witness :
    (applyPolicyUpdate 14 ⟨7, 0, true, false⟩ 0 6 0).2 = PolicyVerdict.outdated ∧
      (applyPolicyUpdate 14 ⟨7, 0, true, false⟩ 0 6 0).1 = ⟨7, 0, true, false⟩ :=
  (claim_C5_theorem 14 ⟨7, 0, true, false⟩ 0 6 0).1 rfl (by decide) (by decide)

/-- Claim C5 counterexample: an update whose timestamp 5 equals the stored
timestamp 5 is rejected as Outdated, and the stored timestamp afterwards
equals 5: it is not strictly greater than the rejected update timestamp,
refuting the strict inequality asserted by the claim. -/
theorem claim_C5_counterexample :
    (applyPolicyUpdate 14 ⟨5, 0, true, false⟩ 0 5 0).2 = PolicyVerdict.outdated ∧
      (applyPolicyUpdate 14 ⟨5, 0, true, false⟩ 0 5 0).1.edge1Timestamp = 5 := by
  decide

/-- Claim C4: a new-block notification whose height differs from
bestHeight + 1 (as uint32 arithmetic) is dropped with no state change, no
PruneGraph invocation and no topology notification, while the contiguous
notification advances bestHeight to the new height and invokes graph
pruning. -/
theorem claim_C4_theorem (best height : Nat) (pruneOk : Bool)
    (chansClosed : Nat) :
    (height ≠ (best + 1) % 2 ^ 32 →
      handleNewBlock best height pruneOk chansClosed =
        { newBestHeight := best
          pruneGraphCalled := false
          notifiedTopology := false }) ∧
    (height = (best + 1) % 2 ^ 32 →
      (handleNewBlock best height pruneOk chansClosed).newBestHeight = height ∧
        (handleNewBlock best height pruneOk chansClosed).pruneGraphCalled = true) := by
  constructor <;> intro h <;> simp only [handleNewBlock] <;> split_ifs <;>
    simp_all

/-- Witness for claim C4: at best height 100, a block at height 102 is
dropped and a block at height 101 advances the tip and prunes. -/
theorem claim_C4_witness :
    (handleNewBlock 100 102 true 3 =
      { newBestHeight := 100
        pruneGraphCalled := false
        notifiedTopology := false }) ∧
      (handleNewBlock 100 101 true 3).newBestHeight = 101 ∧
        (handleNewBlock 100 101 true 3).pruneGraphCalled = true :=
  ⟨(claim_C4_theorem 100 102 true 3).1 (by decide),
    (claim_C4_theorem 100 101 true 3).2 (by decide)⟩

/-- A transaction of a fetched block, as fetchChanPoint uses it: its hash
and its list of outputs (only the output values matter here). -/
structure BlockTx where
  txid : Nat
  txOut : List Nat
  deriving Repr, DecidableEq

/-- A block returned by the chain oracle: its transaction list. -/
structure Block where
  transactions : List BlockTx
  deriving Repr, DecidableEq

/-- A short channel id as fetchChanPoint consumes it: 24-bit block
height, 24-bit transaction index (held in a uint32 field) and 16-bit
output index (TxPosition). -/
structure ShortChannelID where
  blockHeight : Nat
  txIndex : Nat
  txPosition : Nat
  deriving Repr, DecidableEq

/-- Outcome of fetchChanPoint: success with the funding outpoint
(funding txid and output index) and the selected output; an error from
the chain oracle; the explicit tx-index range error; or a Go runtime
panic from an out-of-bounds slice access. -/
inductive FetchChanPointOutcome where
  | ok (fundingTxid outIndex txOutValue : Nat)
  | chainErr
  | indexOutOfRange
  | panicked
  deriving Repr, DecidableEq

/-- fetchChanPoint (router.go lines 1318-1353). `getBlockHash` and
`getBlock` stand for the chain oracle calls (none = error). The bound
check is Go uint32 arithmetic: `numTxns - 1` wraps to 2^32 - 1 when the
block has no transactions. The accesses `Transactions[TxIndex]` (line
1345) and `fundingTx.TxOut[TxPosition]` (line 1350) are plain Go slice
indexing, which panics when out of bounds; those panics are the
`.panicked` outcome. -/
def fetchChanPoint (getBlockHash : Nat → Option Nat)
    (getBlock : Nat → Option Block) (chanID : ShortChannelID) :
    FetchChanPointOutcome :=
  match getBlockHash chanID.blockHeight with
  | none => .chainErr
  | some h =>
    match getBlock h with
    | none => .chainErr
    | some fundingBlock =>
      let numTxns := fundingBlock.transactions.length
      let maxIndex := (numTxns + 2 ^ 32 - 1) % 2 ^ 32
      if chanID.txIndex > maxIndex then .indexOutOfRange
      else
        match fundingBlock.transactions.get? chanID.txIndex with
        | none => .panicked
        | some fundingTx =>
          match fundingTx.txOut.get? chanID.txPosition with
          | none => .panicked
          | some v => .ok fundingTx.txid chanID.txPosition v

/-- Claim C9, amended: when the chain oracle yields a block holding at
least one and fewer than 2^32 transactions, an advertised transaction
index past the last transaction yields the explicit range error rather
than an out-of-bounds access; the output-index access, however, is not
bounds-checked (see the counterexample). -/
theorem claim_C9_theorem (getBlockHash : Nat → Option Nat)
    (getBlock : Nat → Option Block) (chanID : ShortChannelID)
    (h : Nat) (blk : Block) (hh : getBlockHash chanID.blockHeight = some h)
    (hb : getBlock h = some blk) (hne : 0 < blk.transactions.length)
    (hlt : blk.transactions.length < 2 ^ 32)
    (hidx : blk.transactions.length ≤ chanID.txIndex) :
    fetchChanPoint getBlockHash getBlock chanID = .indexOutOfRange := by
  unfold fetchChanPoint
  simp only [hh, hb]
  have hmod : (blk.transactions.length + 2 ^ 32 - 1) % 2 ^ 32 =
      blk.transactions.length - 1 := by
    rw [show blk.transactions.length + 2 ^ 32 - 1 =
        (blk.transactions.length - 1) + 1 * 2 ^ 32 by omega]
    rw [Nat.add_mul_mod_self_right]
    exact Nat.mod_eq_of_lt (by omega)
  simp only [hmod]
  rw [if_pos (by omega)]

/-- Witness for claim C9: a block with a single transaction and tx index
1 produces the range error. -/
theorem claim_C9_witness :
    fetchChanPoint (fun _ => some 0) (fun _ => some ⟨[⟨7, [100]⟩]⟩)
      ⟨0, 1, 0⟩ = .indexOutOfRange :=
  claim_C9_theorem (fun _ => some 0) (fun _ => some ⟨[⟨7, [100]⟩]⟩)
    ⟨0, 1, 0⟩ 0 ⟨[⟨7, [100]⟩]⟩ rfl rfl (by decide) (by decide) (by decide)

/-- Claim C9 counterexample: with a block whose only transaction has a
single output, a channel id advertising output index 5 drives the
unchecked access `fundingTx.TxOut[chanID.TxPosition]` (router.go line
1350) out of bounds: the function panics instead of returning an error,
refuting the claimed totality. -/
theorem claim_C9_counterexample :
    fetchChanPoint (fun _ => some 0) (fun _ => some ⟨[⟨7, [100]⟩]⟩)
      ⟨0, 0, 5⟩ = .panicked := by
  rfl

/-- A structured error as sendPayment and SendToRoute hand them around
(router.go lines 1643-1697): a route-exhaustion error carrying the last
classified wire failure, the distinct missing-failure-message error, a
wire failure surfaced directly to the caller, or any other error
(InitPayment failures and the like), with wire failures and opaque
errors drawn from Nat. -/
inductive PaymentError where
  | noRoute (lastError : Option Nat)
  | missingFailureMessage
  | wire (f : Nat)
  | other (e : Nat)
  deriving Repr, DecidableEq

/-- SendToRoute (router.go lines 1643-1697), given the outcome of
Control.InitPayment (some e = error) and of the inner sendPayment call.
A noRoute error from sendPayment is unwrapped: its recorded last wire
failure is returned directly, or the distinct missing-failure-message
error when none was recorded; every other error passes through. -/
def SendToRoute (initPaymentResult : Option Nat)
    (sendResult : Except PaymentError Nat) : Except PaymentError Nat :=
  match initPaymentResult with
  | some e => .error (.other e)
  | none =>
    match sendResult with
    | .ok preimage => .ok preimage
    | .error (.noRoute (some f)) => .error (.wire f)
    | .error (.noRoute none) => .error .missingFailureMessage
    | .error e => .error e

/-- Claim C8: SendToRoute never surfaces the generic no-route error; when
the route was exhausted with a recorded wire failure it returns exactly
that failure, and when the no-route error carries no failure message it
returns the distinct missing-failure-message error. -/
theorem claim_C8_theorem (initPaymentResult : Option Nat)
    (sendResult : Except PaymentError Nat) (o : Option Nat) (f : Nat) :
    SendToRoute initPaymentResult sendResult ≠ .error (.noRoute o) ∧
      SendToRoute none (.error (.noRoute (some f))) = .error (.wire f) ∧
      SendToRoute none (.error (.noRoute none)) =
        .error .missingFailureMessage := by
  refine ⟨?_, rfl, rfl⟩
  unfold SendToRoute
  rcases initPaymentResult with _ | e
  · rcases sendResult with e' | p
    · rcases e' with o' | _ | f' | e''
      · rcases o' with _ | f'' <;> simp
      · simp
      · simp
      · simp
    · simp
  · simp

/-- Witness for claim C8 at concrete arguments. -/
theorem claim_C8_witness :
    SendToRoute none (.error (.noRoute (some 3))) ≠
        .error (PaymentError.noRoute (some 3)) ∧
      SendToRoute none (.error (.noRoute (some 3))) = .error (.wire 3) ∧
      SendToRoute none (.error (.noRoute none)) =
        .error .missingFailureMessage :=
  claim_C8_theorem none (.error (.noRoute (some 3))) (some 3) 3

end Routing

namespace Sweep

/-- A fee preference as the sweeper accepts it: either a confirmation
target to be translated by the fee estimator, or an explicit fee rate in
sat/kW. -/
inductive FeePreference where
  | confTarget (t : Nat)
  | feeRate (r : Nat)
  deriving Repr, DecidableEq

/-- Modelled from the spec: the helper DetermineFeePerKw is not among the
source files (sweeper.go only calls it, lines 397 and 1000); per the spec
a fee preference is "either absolute sat/kW or a confirmation target
translated via the fee estimator". `estimateFeePerKw` is the estimator
(none = estimation error). -/
def DetermineFeePerKw (estimateFeePerKw : Nat → Option Nat) :
    FeePreference → Option Nat
  | .confTarget t => estimateFeePerKw t
  | .feeRate r => some r

/-- feeRateForPreference (sweeper.go lines 394-411): translate the
preference, then reject fee rates below the relay fee rate or above the
configured maximum (none = the corresponding Go error). -/
def feeRateForPreference (estimateFeePerKw : Nat → Option Nat)
    (relayFeeRate maxFeeRate : Nat) (fp : FeePreference) : Option Nat :=
  match DetermineFeePerKw estimateFeePerKw fp with
  | none => none
  | some feeRate =>
    if feeRate < relayFeeRate then none
    else if feeRate > maxFeeRate then none
    else some feeRate

/-- bucketForFeeRate (sweeper.go lines 603-610):
ceil(feeRate / (relayFeeRate + bucketSize)), as Nat ceiling division
(the Go code computes the same value with float64 math.Ceil; the
magnitudes involved, at most the maximum fee rate 2,500,000, are far
below 2^53, where float64 division and ceiling are exact). -/
def bucketForFeeRate (relayFeeRate bucketSize feeRate : Nat) : Nat :=
  (feeRate + (relayFeeRate + bucketSize) - 1) / (relayFeeRate + bucketSize)

/-- A cluster produced by clusterBySweepFeeRate: its sweep fee rate and
its member inputs as (outpoint, fee rate) pairs. -/
structure InputCluster where
  sweepFeeRate : Nat
  inputs : List (Nat × Nat)
  deriving Repr, DecidableEq

/-- The pending inputs whose fee preference translates successfully,
paired with their fee rate (the first grouping pass of
clusterBySweepFeeRate, sweeper.go lines 622-639; failing inputs are
skipped with a warning). -/
def ratedInputs (estimateFeePerKw : Nat → Option Nat)
    (relayFeeRate maxFeeRate : Nat) (pending : List (Nat × FeePreference)) :
    List (Nat × Nat) :=
  pending.filterMap fun p =>
    (feeRateForPreference estimateFeePerKw relayFeeRate maxFeeRate p.2).map
      fun r => (p.1, r)

/-- clusterBySweepFeeRate (sweeper.go lines 616-657): group the rated
pending inputs by fee-rate bucket, then give each bucket the
integer-division mean of its member fee rates as sweep fee rate. Go
iterates a map, so cluster order is arbitrary; here buckets appear in
first-occurrence order. -/
def clusterBySweepFeeRate (estimateFeePerKw : Nat → Option Nat)
    (relayFeeRate maxFeeRate bucketSize : Nat)
    (pending : List (Nat × FeePreference)) : List InputCluster :=
  let rated := ratedInputs estimateFeePerKw relayFeeRate maxFeeRate pending
  let buckets :=
    (rated.map fun p => bucketForFeeRate relayFeeRate bucketSize p.2).dedup
  buckets.map fun b =>
    let ins := rated.filter fun p =>
      bucketForFeeRate relayFeeRate bucketSize p.2 == b
    { sweepFeeRate := (ins.map Prod.snd).sum / ins.length
      inputs := ins }

/-- Claim C1, amended: with fee rates 10 and 12, bucket size 10 and
maximum fee rate 2,500,000, the rate-10 input is in bucket 1 for every
relay fee rate (never bucket 2, since relay + 10 ≥ 10), and
clusterBySweepFeeRate behaves as follows for every relay fee rate: with
relay 0 or 1 the rate-12 input is in bucket 2 and the two inputs form
two singleton clusters (sweep rates 10 and 12); with relay between 2 and
10 both inputs share bucket 1 and form a single cluster whose sweep fee
rate is the integer-division mean 11, so both go into one sweep
transaction; with relay 11 or 12 the rate-10 input falls below the relay
floor and is skipped, leaving one singleton cluster of the rate-12
input; with relay 13 or more both inputs are skipped and no cluster
forms. -/
theorem claim_C1_theorem (relay : Nat) :
    bucketForFeeRate relay 10 10 = 1 ∧
    (relay ≤ 1 →
      bucketForFeeRate relay 10 12 = 2 ∧
      clusterBySweepFeeRate (fun _ => none) relay 2500000 10
          [(1, .feeRate 10), (2, .feeRate 12)] =
        [{ sweepFeeRate := 10, inputs := [(1, 10)] },
         { sweepFeeRate := 12, inputs := [(2, 12)] }]) ∧
    (2 ≤ relay → bucketForFeeRate relay 10 12 = 1) ∧
    (2 ≤ relay → relay ≤ 10 →
      clusterBySweepFeeRate (fun _ => none) relay 2500000 10
          [(1, .feeRate 10), (2, .feeRate 12)] =
        [{ sweepFeeRate := 11, inputs := [(1, 10), (2, 12)] }]) ∧
    (11 ≤ relay → relay ≤ 12 →
      clusterBySweepFeeRate (fun _ => none) relay 2500000 10
          [(1, .feeRate 10), (2, .feeRate 12)] =
        [{ sweepFeeRate := 12, inputs := [(2, 12)] }]) ∧
    (13 ≤ relay →
      clusterBySweepFeeRate (fun _ => none) relay 2500000 10
          [(1, .feeRate 10), (2, .feeRate 12)] = []) := by
  have b10 : bucketForFeeRate relay 10 10 = 1 := by
    unfold bucketForFeeRate
    exact Nat.div_eq_of_lt_le (by omega) (by omega)
  refine ⟨b10, ?_, ?_, ?_, ?_, ?_⟩
  · intro h1
    have b12 : bucketForFeeRate relay 10 12 = 2 := by
      unfold bucketForFeeRate
      exact Nat.div_eq_of_lt_le (by omega) (by omega)
    refine ⟨b12, ?_⟩
    have hr : ratedInputs (fun _ => none) relay 2500000
        [(1, .feeRate 10), (2, .feeRate 12)] = [(1, 10), (2, 12)] := by
      simp [ratedInputs, feeRateForPreference, DetermineFeePerKw,
        Nat.not_lt.mpr (show relay ≤ 10 by omega),
        Nat.not_lt.mpr (show relay ≤ 12 by omega)]
    unfold clusterBySweepFeeRate
    rw [hr]
    simp [b10, b12, List.dedup_cons_of_not_mem, List.dedup_nil]
  · intro h2
    unfold bucketForFeeRate
    exact Nat.div_eq_of_lt_le (by omega) (by omega)
  · intro h2 h10
    have b12 : bucketForFeeRate relay 10 12 = 1 := by
      unfold bucketForFeeRate
      exact Nat.div_eq_of_lt_le (by omega) (by omega)
    have hr : ratedInputs (fun _ => none) relay 2500000
        [(1, .feeRate 10), (2, .feeRate 12)] = [(1, 10), (2, 12)] := by
      simp [ratedInputs, feeRateForPreference, DetermineFeePerKw,
        Nat.not_lt.mpr h10, Nat.not_lt.mpr (show relay ≤ 12 by omega)]
    unfold clusterBySweepFeeRate
    rw [hr]
    simp [b10, b12, List.dedup_cons_of_mem, List.dedup_nil]
  · intro h11 h12
    have b12 : bucketForFeeRate relay 10 12 = 1 := by
      unfold bucketForFeeRate
      exact Nat.div_eq_of_lt_le (by omega) (by omega)
    have hr : ratedInputs (fun _ => none) relay 2500000
        [(1, .feeRate 10), (2, .feeRate 12)] = [(2, 12)] := by
      simp [ratedInputs, feeRateForPreference, DetermineFeePerKw,
        show 10 < relay by omega, Nat.not_lt.mpr h12]
    unfold clusterBySweepFeeRate
    rw [hr]
    simp [b12, List.dedup_nil]
  · intro h13
    have hr : ratedInputs (fun _ => none) relay 2500000
        [(1, .feeRate 10), (2, .feeRate 12)] = [] := by
      simp [ratedInputs, feeRateForPreference, DetermineFeePerKw,
        show 10 < relay by omega, show 12 < relay by omega]
    unfold clusterBySweepFeeRate
    rw [hr]
    simp

/-- Witness for claim C1: the theorem evaluated at relay fee rates 1 and
2, exercising the split-cluster and the single-cluster regimes. -/
theorem claim_C1_witness :
    bucketForFeeRate 2 10 10 = 1 ∧ bucketForFeeRate 2 10 12 = 1 ∧
      clusterBySweepFeeRate (fun _ => none) 2 2500000 10
          [(1, .feeRate 10), (2, .feeRate 12)] =
        [{ sweepFeeRate := 11, inputs := [(1, 10), (2, 12)] }] ∧
      clusterBySweepFeeRate (fun _ => none) 1 2500000 10
          [(1, .feeRate 10), (2, .feeRate 12)] =
        [{ sweepFeeRate := 10, inputs := [(1, 10)] },
         { sweepFeeRate := 12, inputs := [(2, 12)] }] :=
  ⟨(claim_C1_theorem 2).1, (claim_C1_theorem 2).2.2.1 (by decide),
    (claim_C1_theorem 2).2.2.2.1 (by decide) (by decide),
    ((claim_C1_theorem 1).2.1 (by decide)).2⟩

/-- Claim C1 counterexample: with the claimed bucket formula and a relay
fee rate of 1, the rate-10 input lands in bucket 1 and the rate-12 input
in bucket 2 - not both in bucket 2 - and clusterBySweepFeeRate returns
two singleton clusters (sweep rates 10 and 12) instead of one cluster
with sweep rate 11. -/
theorem claim_C1_counterexample :
    bucketForFeeRate 1 10 10 = 1 ∧ bucketForFeeRate 1 10 12 = 2 ∧
      clusterBySweepFeeRate (fun _ => none) 1 2500000 10
        [(1, .feeRate 10), (2, .feeRate 12)] =
        [{ sweepFeeRate := 10, inputs := [(1, 10)] },
         { sweepFeeRate := 12, inputs := [(2, 12)] }] := by
  decide

/-- The argument of SweepInput (sweeper.go line 359): the input
interface value may be nil (the outer Option), and its OutPoint and
SignDesc calls may return nil (the inner Options). -/
structure InputArg where
  outPoint : Option Nat
  signDesc : Option Nat
  deriving Repr, DecidableEq

/-- Outcome of SweepInput: an error returned to the caller with nothing
sent to the event loop, or a sweepInputMessage delivered to the main
loop (which is what later registers the pending input and its listener
channel). -/
inductive SweepInputOutcome where
  | rejected
  | delivered (outPoint : Nat) (fp : FeePreference)
  deriving Repr, DecidableEq

/-- SweepInput (sweeper.go lines 359-390): reject nil input, nil
outpoint or nil sign descriptor, then reject fee preferences that do not
translate to a rate within [relay fee rate, max fee rate]; only then is
the message handed to the collector loop. (The shutdown path, which can
also reject, is a concurrency effect outside this embedding.) -/
def SweepInput (estimateFeePerKw : Nat → Option Nat)
    (relayFeeRate maxFeeRate : Nat) (inp : Option InputArg)
    (fp : FeePreference) : SweepInputOutcome :=
  match inp with
  | none => .rejected
  | some i =>
    match i.outPoint, i.signDesc with
    | some op, some _ =>
      match feeRateForPreference estimateFeePerKw relayFeeRate maxFeeRate fp with
      | none => .rejected
      | some _ => .delivered op fp
    | _, _ => .rejected

/-- Claim C10: SweepInput rejects (returning an error, registering no
pending input and no listener) a nil input, a nil outpoint, a nil sign
descriptor, and any fee preference translating to a rate below the
relay fee rate or above the maximum; and every message it does deliver
to the loop carries an outpoint and a fee preference that passed all
those checks. -/
theorem claim_C10_theorem (estimateFeePerKw : Nat → Option Nat)
    (relayFeeRate maxFeeRate : Nat) (inp : Option InputArg)
    (i : InputArg) (fp fp2 : FeePreference) (r op : Nat) :
    (SweepInput estimateFeePerKw relayFeeRate maxFeeRate none fp = .rejected) ∧
    (i.outPoint = none →
      SweepInput estimateFeePerKw relayFeeRate maxFeeRate (some i) fp = .rejected) ∧
    (i.signDesc = none →
      SweepInput estimateFeePerKw relayFeeRate maxFeeRate (some i) fp = .rejected) ∧
    (DetermineFeePerKw estimateFeePerKw fp = some r → r < relayFeeRate →
      SweepInput estimateFeePerKw relayFeeRate maxFeeRate inp fp = .rejected) ∧
    (DetermineFeePerKw estimateFeePerKw fp = some r → maxFeeRate < r →
      SweepInput estimateFeePerKw relayFeeRate maxFeeRate inp fp = .rejected) ∧
    (SweepInput estimateFeePerKw relayFeeRate maxFeeRate inp fp =
        .delivered op fp2 →
      fp2 = fp ∧ ∃ j, inp = some j ∧ j.outPoint = some op ∧
        j.signDesc.isSome = true ∧
        ∃ r2, DetermineFeePerKw estimateFeePerKw fp = some r2 ∧
          relayFeeRate ≤ r2 ∧ r2 ≤ maxFeeRate) := by
  obtain ⟨iop, isd⟩ := i
  refine ⟨rfl, ?_, ?_, ?_, ?_, ?_⟩
  · rintro rfl
    rcases isd with _ | s <;> rfl
  · rintro rfl
    rcases iop with _ | o <;> rfl
  · intro hd hr
    rcases inp with _ | ⟨jop, jsd⟩
    · rfl
    · rcases jop with _ | o <;> rcases jsd with _ | s <;>
        simp [SweepInput, feeRateForPreference, hd, hr]
  · intro hd hr
    rcases inp with _ | ⟨jop, jsd⟩
    · rfl
    · rcases jop with _ | o <;> rcases jsd with _ | s <;>
        simp [SweepInput, feeRateForPreference, hd, Nat.not_lt.mpr (Nat.le_of_lt hr), hr]
  · intro hdel
    rcases inp with _ | ⟨jop, jsd⟩
    · exact absurd hdel (by simp [SweepInput])
    · rcases jop with _ | o
      · exact absurd hdel (by simp [SweepInput])
      · rcases jsd with _ | s
        · exact absurd hdel (by simp [SweepInput])
        · rcases hfr : feeRateForPreference estimateFeePerKw relayFeeRate
              maxFeeRate fp with _ | r2
          · simp [SweepInput, hfr] at hdel
          · simp only [SweepInput, hfr] at hdel
            obtain ⟨ho, hf⟩ : o = op ∧ fp = fp2 := by
              simpa using hdel
            subst ho
            subst hf
            have hb : ∃ r3, DetermineFeePerKw estimateFeePerKw fp = some r3 ∧
                relayFeeRate ≤ r3 ∧ r3 ≤ maxFeeRate ∧ r3 = r2 := by
              unfold feeRateForPreference at hfr
              rcases hde : DetermineFeePerKw estimateFeePerKw fp with _ | r3 <;>
                rw [hde] at hfr <;> simp only [] at hfr
              · cases hfr
              · split_ifs at hfr with h1 h2
                cases hfr
                exact ⟨_, rfl, by omega, by omega, rfl⟩
            obtain ⟨r3, hd3, hl, hu, rfl⟩ := hb
            exact ⟨rfl, ⟨o, s⟩, rfl, rfl, rfl, r3, hd3, hl, hu⟩

/-- Witness for claim C10: a concrete rejection of a below-relay fee
preference and a concrete delivered message. -/
theorem claim_C10_witness :
    SweepInput (fun _ => some 5) 100 1000 (some ⟨some 7, some 1⟩)
      (.confTarget 6) = .rejected :=
  (claim_C10_theorem (fun _ => some 5) 100 1000 (some ⟨some 7, some 1⟩)
    ⟨some 7, some 1⟩ (.confTarget 6) (.confTarget 6) 5 7).2.2.2.1 rfl
    (by decide)

/-- The per-input bookkeeping of a pendingInput that the publish path
touches (sweeper.go lines 62-92): the registered listener channels
(listener ids here), minPublishHeight and publishAttempts. -/
structure PendingInputState where
  listeners : List Nat
  minPublishHeight : Nat
  publishAttempts : Nat
  deriving Repr, DecidableEq

/-- The terminal errors a sweeper Result can carry. -/
inductive SweepErr where
  | tooManyAttempts
  | remoteSpend
  deriving Repr, DecidableEq

/-- Pointwise update of the pending-inputs map. -/
def setPending (m : Nat → Option PendingInputState) (k : Nat)
    (v : Option PendingInputState) : Nat → Option PendingInputState :=
  fun k2 => if k2 = k then v else m k2

/-- One iteration of the retry-accounting loop of sweep (sweeper.go
lines 858-891) for the tx input spending outpoint `op`: skip inputs no
longer pending; otherwise increment publishAttempts, set
minPublishHeight to currentHeight + NextAttemptDeltaFunc(attempts), and
when the attempt count reaches maxSweepAttempts run signalAndRemove
(sweeper.go lines 704-734): deliver ErrTooManyAttempts to every listener
in order and delete the input (the Go code mutates the record before
deleting it, which is observably the same as deleting it). The
accumulator carries the pending map and the listener deliveries made so
far. -/
def rescheduleStep (maxSweepAttempts : Nat) (nextAttemptDelta : Nat → Nat)
    (currentHeight : Nat)
    (st : (Nat → Option PendingInputState) × List (Nat × SweepErr))
    (op : Nat) :
    (Nat → Option PendingInputState) × List (Nat × SweepErr) :=
  match st.1 op with
  | none => st
  | some pi =>
    if maxSweepAttempts ≤ pi.publishAttempts + 1 then
      (setPending st.1 op none,
        st.2 ++ pi.listeners.map fun l => (l, SweepErr.tooManyAttempts))
    else
      (setPending st.1 op (some
        { listeners := pi.listeners
          minPublishHeight :=
            currentHeight + nextAttemptDelta (pi.publishAttempts + 1)
          publishAttempts := pi.publishAttempts + 1 }), st.2)

/-- The whole retry-accounting loop of sweep (sweeper.go lines 858-891),
folded over the outpoints spent by the published transaction. -/
def rescheduleInputs (maxSweepAttempts : Nat) (nextAttemptDelta : Nat → Nat)
    (currentHeight : Nat) (pending : Nat → Option PendingInputState)
    (txIns : List Nat) :
    (Nat → Option PendingInputState) × List (Nat × SweepErr) :=
  txIns.foldl (rescheduleStep maxSweepAttempts nextAttemptDelta currentHeight)
    (pending, [])

/-- DefaultNextAttemptDeltaFunc (sweeper.go lines 1020-1022):
1 + rand.Int31n(1 << (attempts - 1)). The random draw is modelled by
reducing an arbitrary jitter value modulo the bound, so the result is
1 plus some value in [0, 2^(attempts - 1)). -/
def DefaultNextAttemptDeltaFunc (jitter : Nat → Nat) (attempts : Nat) : Nat :=
  1 + jitter attempts % 2 ^ (attempts - 1)

/-- The external calls sweep makes, in order: the lazy GenSweepScript,
createSweepTx, Store.NotifyPublishTx and PublishTransaction. -/
inductive SweepEvent where
  | genScript
  | createTx (txid : Nat)
  | notifyStore (txid : Nat)
  | publish (txid : Nat)
  deriving Repr, DecidableEq

/-- Outcome of the PublishTransaction call. -/
inductive PublishOutcome where
  | ok
  | doubleSpend
  | otherErr (e : Nat)
  deriving Repr, DecidableEq

/-- The observable result of one execution of sweep: the ordered trace
of external calls, the cached output script afterwards, the sweeper
store contents afterwards, the pending map, the listener deliveries, and
whether sweep returned without error. -/
structure SweepRunResult where
  trace : List SweepEvent
  script : Option Nat
  store : List Nat
  pending : Nat → Option PendingInputState
  deliveries : List (Nat × SweepErr)
  returnedOk : Bool

/-- Continuation of sweep once an output script is at hand (sweeper.go
lines 815-894): build the tx (createResult = its hash, none on error,
its inputs spend txIns), record the hash in the sweeper store
(NotifyPublishTx, line 829) strictly before PublishTransaction (line
844), return on an unexpected publish error (line 847) keeping the
cached script, clear the script only when the publish returned no error
at all (line 853), and finally run the retry-accounting loop. -/
def sweepRunAfterScript (maxSweepAttempts : Nat) (nextAttemptDelta : Nat → Nat)
    (script : Nat) (preTrace : List SweepEvent) (createResult : Option Nat)
    (txIns : List Nat) (notifyOk : Bool) (pub : PublishOutcome)
    (store0 : List Nat) (pending0 : Nat → Option PendingInputState)
    (currentHeight : Nat) : SweepRunResult :=
  match createResult with
  | none =>
      { trace := preTrace, script := some script, store := store0
        pending := pending0, deliveries := [], returnedOk := false }
  | some t =>
    if notifyOk = false then
      { trace := preTrace ++ [.createTx t], script := some script
        store := store0, pending := pending0, deliveries := []
        returnedOk := false }
    else
      match pub with
      | .otherErr _ =>
          { trace := preTrace ++ [.createTx t, .notifyStore t, .publish t]
            script := some script, store := t :: store0
            pending := pending0, deliveries := [], returnedOk := false }
      | .ok =>
          { trace := preTrace ++ [.createTx t, .notifyStore t, .publish t]
            script := none, store := t :: store0
            pending := (rescheduleInputs maxSweepAttempts nextAttemptDelta
              currentHeight pending0 txIns).1
            deliveries := (rescheduleInputs maxSweepAttempts nextAttemptDelta
              currentHeight pending0 txIns).2
            returnedOk := true }
      | .doubleSpend =>
          { trace := preTrace ++ [.createTx t, .notifyStore t, .publish t]
            script := some script, store := t :: store0
            pending := (rescheduleInputs maxSweepAttempts nextAttemptDelta
              currentHeight pending0 txIns).1
            deliveries := (rescheduleInputs maxSweepAttempts nextAttemptDelta
              currentHeight pending0 txIns).2
            returnedOk := true }

/-- sweep (sweeper.go lines 803-894): first ensure an output script is
cached (lazy GenSweepScript, lines 807-813; genResult = none is a
generation error), then proceed with the publish path. -/
def sweepRun (maxSweepAttempts : Nat) (nextAttemptDelta : Nat → Nat)
    (script0 genResult createResult : Option Nat) (txIns : List Nat)
    (notifyOk : Bool) (pub : PublishOutcome) (store0 : List Nat)
    (pending0 : Nat → Option PendingInputState) (currentHeight : Nat) :
    SweepRunResult :=
  match script0, genResult with
  | none, none =>
      { trace := [.genScript], script := none, store := store0
        pending := pending0, deliveries := [], returnedOk := false }
  | none, some sg =>
      sweepRunAfterScript maxSweepAttempts nextAttemptDelta sg
        [SweepEvent.genScript] createResult txIns notifyOk pub store0
        pending0 currentHeight
  | some s0, _ =>
      sweepRunAfterScript maxSweepAttempts nextAttemptDelta s0 []
        createResult txIns notifyOk pub store0 pending0 currentHeight

theorem rescheduleStep_ne (maxSweepAttempts : Nat) (nextAttemptDelta : Nat → Nat)
    (currentHeight : Nat)
    (st : (Nat → Option PendingInputState) × List (Nat × SweepErr))
    (op k : Nat) (hk : k ≠ op) :
    (rescheduleStep maxSweepAttempts nextAttemptDelta currentHeight st op).1 k =
      st.1 k := by
  unfold rescheduleStep
  rcases hpo : st.1 op with _ | pi <;> simp only [hpo]
  split_ifs <;> simp [setPending, hk]

theorem rescheduleStep_deliveries_mono (maxSweepAttempts : Nat)
    (nextAttemptDelta : Nat → Nat) (currentHeight : Nat)
    (st : (Nat → Option PendingInputState) × List (Nat × SweepErr))
    (op : Nat) (d : Nat × SweepErr) (hd : d ∈ st.2) :
    d ∈ (rescheduleStep maxSweepAttempts nextAttemptDelta currentHeight st op).2 := by
  unfold rescheduleStep
  rcases hpo : st.1 op with _ | pi <;> simp only [hpo]
  · exact hd
  · split_ifs
    · exact List.mem_append_left _ hd
    · exact hd

theorem rescheduleFold_ne (maxSweepAttempts : Nat) (nextAttemptDelta : Nat → Nat)
    (currentHeight op : Nat) :
    ∀ (xs : List Nat)
      (st : (Nat → Option PendingInputState) × List (Nat × SweepErr)),
      op ∉ xs →
      ((xs.foldl (rescheduleStep maxSweepAttempts nextAttemptDelta currentHeight)
        st).1 op = st.1 op) := by
  intro xs
  induction xs with
  | nil => intro st _; rfl
  | cons x xs ih =>
    intro st hop
    rw [List.foldl_cons,
      ih _ (fun hm => hop (List.mem_cons_of_mem x hm))]
    exact rescheduleStep_ne maxSweepAttempts nextAttemptDelta currentHeight st x
      op (fun he => hop (he ▸ List.mem_cons_self x xs))

theorem rescheduleFold_deliveries_mono (maxSweepAttempts : Nat)
    (nextAttemptDelta : Nat → Nat) (currentHeight : Nat) (d : Nat × SweepErr) :
    ∀ (xs : List Nat)
      (st : (Nat → Option PendingInputState) × List (Nat × SweepErr)),
      d ∈ st.2 →
      d ∈ ((xs.foldl
        (rescheduleStep maxSweepAttempts nextAttemptDelta currentHeight) st).2) := by
  intro xs
  induction xs with
  | nil => intro st hd; exact hd
  | cons x xs ih =>
    intro st hd
    rw [List.foldl_cons]
    exact ih _ (rescheduleStep_deliveries_mono maxSweepAttempts nextAttemptDelta
      currentHeight st x d hd)

theorem rescheduleFold_spec (maxSweepAttempts : Nat)
    (nextAttemptDelta : Nat → Nat) (currentHeight op : Nat)
    (pi : PendingInputState) :
    ∀ (xs : List Nat)
      (st : (Nat → Option PendingInputState) × List (Nat × SweepErr)),
      xs.Nodup → op ∈ xs → st.1 op = some pi →
      (pi.publishAttempts + 1 < maxSweepAttempts →
        ((xs.foldl (rescheduleStep maxSweepAttempts nextAttemptDelta
            currentHeight) st).1 op =
          some { listeners := pi.listeners
                 minPublishHeight :=
                   currentHeight + nextAttemptDelta (pi.publishAttempts + 1)
                 publishAttempts := pi.publishAttempts + 1 })) ∧
      (maxSweepAttempts ≤ pi.publishAttempts + 1 →
        ((xs.foldl (rescheduleStep maxSweepAttempts nextAttemptDelta
            currentHeight) st).1 op = none) ∧
          ∀ l ∈ pi.listeners,
            (l, SweepErr.tooManyAttempts) ∈
              ((xs.foldl (rescheduleStep maxSweepAttempts nextAttemptDelta
                currentHeight) st).2)) := by
  intro xs
  induction xs with
  | nil =>
    intro st _ hmem
    exact absurd hmem (List.not_mem_nil op)
  | cons x xs ih =>
    intro st hnd hmem hpi
    rcases List.mem_cons.mp hmem with rfl | hmem2
    · have hnx : op ∉ xs := (List.nodup_cons.mp hnd).1
      have hstep : rescheduleStep maxSweepAttempts nextAttemptDelta
          currentHeight st op =
          (if maxSweepAttempts ≤ pi.publishAttempts + 1 then
            (setPending st.1 op none,
              st.2 ++ pi.listeners.map fun l => (l, SweepErr.tooManyAttempts))
          else
            (setPending st.1 op (some
              { listeners := pi.listeners
                minPublishHeight :=
                  currentHeight + nextAttemptDelta (pi.publishAttempts + 1)
                publishAttempts := pi.publishAttempts + 1 }), st.2)) := by
        unfold rescheduleStep
        rw [hpi]
      constructor
      · intro hlt
        rw [List.foldl_cons,
          rescheduleFold_ne maxSweepAttempts nextAttemptDelta currentHeight op
            xs _ hnx, hstep, if_neg (by omega)]
        simp [setPending]
      · intro hge
        constructor
        · rw [List.foldl_cons,
            rescheduleFold_ne maxSweepAttempts nextAttemptDelta currentHeight op
              xs _ hnx, hstep, if_pos hge]
          simp [setPending]
        · intro l hl
          rw [List.foldl_cons]
          apply rescheduleFold_deliveries_mono
          rw [hstep, if_pos hge]
          exact List.mem_append_right _ (List.mem_map.mpr ⟨l, hl, rfl⟩)
    · have hne : op ≠ x := by
        intro he
        subst he
        exact (List.nodup_cons.mp hnd).1 hmem2
      rw [List.foldl_cons]
      exact ih _ (List.nodup_cons.mp hnd).2 hmem2
        (by rw [rescheduleStep_ne maxSweepAttempts nextAttemptDelta
          currentHeight st x op hne]; exact hpi)

theorem afterScript_publish_spec (maxSweepAttempts : Nat)
    (nextAttemptDelta : Nat → Nat) (script : Nat) (preTrace : List SweepEvent)
    (createResult : Option Nat) (txIns : List Nat) (notifyOk : Bool)
    (pub : PublishOutcome) (store0 : List Nat)
    (pending0 : Nat → Option PendingInputState) (currentHeight t : Nat)
    (hpre : SweepEvent.publish t ∉ preTrace)
    (hp : SweepEvent.publish t ∈
      (sweepRunAfterScript maxSweepAttempts nextAttemptDelta script preTrace
        createResult txIns notifyOk pub store0 pending0 currentHeight).trace) :
    (∃ pre, (sweepRunAfterScript maxSweepAttempts nextAttemptDelta script
        preTrace createResult txIns notifyOk pub store0 pending0
        currentHeight).trace =
      pre ++ [SweepEvent.createTx t, SweepEvent.notifyStore t,
        SweepEvent.publish t]) ∧
    t ∈ (sweepRunAfterScript maxSweepAttempts nextAttemptDelta script preTrace
      createResult txIns notifyOk pub store0 pending0 currentHeight).store ∧
    (pub = .doubleSpend →
      (sweepRunAfterScript maxSweepAttempts nextAttemptDelta script preTrace
          createResult txIns notifyOk pub store0 pending0
          currentHeight).returnedOk = true ∧
        (sweepRunAfterScript maxSweepAttempts nextAttemptDelta script preTrace
          createResult txIns notifyOk pub store0 pending0
          currentHeight).script ≠ none) ∧
    ((sweepRunAfterScript maxSweepAttempts nextAttemptDelta script preTrace
        createResult txIns notifyOk pub store0 pending0
        currentHeight).script = none ↔ pub = .ok) := by
  rcases createResult with _ | t2
  · exact absurd (by simpa [sweepRunAfterScript] using hp) hpre
  · cases notifyOk
    · have : SweepEvent.publish t ∈ preTrace := by
        simpa [sweepRunAfterScript] using hp
      exact absurd this hpre
    · rcases pub with _ | _ | e <;>
        · have ht : t = t2 := by
            rcases (by simpa [sweepRunAfterScript] using hp :
                SweepEvent.publish t ∈ preTrace ∨ t = t2) with hin | heq
            · exact absurd hin hpre
            · exact heq
          subst ht
          refine ⟨⟨preTrace, by simp [sweepRunAfterScript]⟩,
            by simp [sweepRunAfterScript], by simp [sweepRunAfterScript],
            by simp [sweepRunAfterScript]⟩

/-- Claim C7: in every execution of sweep in which PublishTransaction is
called on a transaction, Store.NotifyPublishTx recorded that transaction
strictly earlier in the call trace (immediately after its creation), and
its hash is in the sweeper store; a DoubleSpend publication error is
treated as success (sweep returns without error, proceeding to retry
accounting); and the cached output script is cleared exactly when
publication returned no error at all. -/
theorem claim_C7_theorem (maxSweepAttempts : Nat)
    (nextAttemptDelta : Nat → Nat) (script0 genResult createResult : Option Nat)
    (txIns : List Nat) (notifyOk : Bool) (pub : PublishOutcome)
    (store0 : List Nat) (pending0 : Nat → Option PendingInputState)
    (currentHeight t : Nat)
    (hp : SweepEvent.publish t ∈
      (sweepRun maxSweepAttempts nextAttemptDelta script0 genResult
        createResult txIns notifyOk pub store0 pending0 currentHeight).trace) :
    (∃ pre, (sweepRun maxSweepAttempts nextAttemptDelta script0 genResult
        createResult txIns notifyOk pub store0 pending0 currentHeight).trace =
      pre ++ [SweepEvent.createTx t, SweepEvent.notifyStore t,
        SweepEvent.publish t]) ∧
    t ∈ (sweepRun maxSweepAttempts nextAttemptDelta script0 genResult
      createResult txIns notifyOk pub store0 pending0 currentHeight).store ∧
    (pub = .doubleSpend →
      (sweepRun maxSweepAttempts nextAttemptDelta script0 genResult
          createResult txIns notifyOk pub store0 pending0
          currentHeight).returnedOk = true ∧
        (sweepRun maxSweepAttempts nextAttemptDelta script0 genResult
          createResult txIns notifyOk pub store0 pending0
          currentHeight).script ≠ none) ∧
    ((sweepRun maxSweepAttempts nextAttemptDelta script0 genResult
        createResult txIns notifyOk pub store0 pending0
        currentHeight).script = none ↔ pub = .ok) := by
  rcases script0 with _ | s0 <;> rcases genResult with _ | sg
  · simp [sweepRun] at hp
  · exact afterScript_publish_spec maxSweepAttempts nextAttemptDelta sg
      [SweepEvent.genScript] createResult txIns notifyOk pub store0 pending0
      currentHeight t (by simp) hp
  · exact afterScript_publish_spec maxSweepAttempts nextAttemptDelta s0 []
      createResult txIns notifyOk pub store0 pending0 currentHeight t
      (by simp) hp
  · exact afterScript_publish_spec maxSweepAttempts nextAttemptDelta s0 []
      createResult txIns notifyOk pub store0 pending0 currentHeight t
      (by simp) hp

/-- Witness for claim C7: a concrete run with a cached script whose
publish returns DoubleSpend. -/
theorem claim_C7_witness :
    (∃ pre, (sweepRun 10 (fun _ => 1) (some 9) none (some 42) [7] true
        .doubleSpend [] (fun _ => none) 200).trace =
      pre ++ [SweepEvent.createTx 42, SweepEvent.notifyStore 42,
        SweepEvent.publish 42]) ∧
    42 ∈ (sweepRun 10 (fun _ => 1) (some 9) none (some 42) [7] true
      .doubleSpend [] (fun _ => none) 200).store ∧
    (PublishOutcome.doubleSpend = .doubleSpend →
      (sweepRun 10 (fun _ => 1) (some 9) none (some 42) [7] true
          .doubleSpend [] (fun _ => none) 200).returnedOk = true ∧
        (sweepRun 10 (fun _ => 1) (some 9) none (some 42) [7] true
          .doubleSpend [] (fun _ => none) 200).script ≠ none) ∧
    ((sweepRun 10 (fun _ => 1) (some 9) none (some 42) [7] true
        .doubleSpend [] (fun _ => none) 200).script = none ↔
      PublishOutcome.doubleSpend = .ok) :=
  claim_C7_theorem 10 (fun _ => 1) (some 9) none (some 42) [7] true
    .doubleSpend [] (fun _ => none) 200 42 (by simp [sweepRun,
      sweepRunAfterScript])

/-- Claim C6, amended: for every execution of sweep in which the publish
call returns no error or ErrDoubleSpend, the default next-attempt delta
is at least 1, and for each input of the built transaction still
pending: publishAttempts is incremented by one and minPublishHeight
becomes currentHeight plus the delta of the new attempt count (hence at
least currentHeight + 1), and an input whose attempt count reaches
MaxSweepAttempts is removed from the pending set with TooManyAttempts
delivered to every one of its listeners. (When the publish call fails
with an unexpected error sweep returns before the accounting loop: see
the counterexample.) -/
theorem claim_C6_theorem (maxSweepAttempts : Nat) (jitter : Nat → Nat)
    (script0 genResult : Option Nat) (t : Nat) (txIns : List Nat)
    (pub : PublishOutcome) (store0 : List Nat)
    (pending0 : Nat → Option PendingInputState) (currentHeight op : Nat)
    (pi : PendingInputState)
    (hgen : ¬(script0 = none ∧ genResult = none))
    (hpub : pub = .ok ∨ pub = .doubleSpend)
    (hnd : txIns.Nodup) (hop : op ∈ txIns) (hpi : pending0 op = some pi) :
    1 ≤ DefaultNextAttemptDeltaFunc jitter (pi.publishAttempts + 1) ∧
    (pi.publishAttempts + 1 < maxSweepAttempts →
      (sweepRun maxSweepAttempts (DefaultNextAttemptDeltaFunc jitter) script0
          genResult (some t) txIns true pub store0 pending0
          currentHeight).pending op =
        some { listeners := pi.listeners
               minPublishHeight := currentHeight +
                 DefaultNextAttemptDeltaFunc jitter (pi.publishAttempts + 1)
               publishAttempts := pi.publishAttempts + 1 } ∧
      currentHeight + 1 ≤ currentHeight +
        DefaultNextAttemptDeltaFunc jitter (pi.publishAttempts + 1)) ∧
    (maxSweepAttempts ≤ pi.publishAttempts + 1 →
      (sweepRun maxSweepAttempts (DefaultNextAttemptDeltaFunc jitter) script0
          genResult (some t) txIns true pub store0 pending0
          currentHeight).pending op = none ∧
        ∀ l ∈ pi.listeners,
          (l, SweepErr.tooManyAttempts) ∈
            (sweepRun maxSweepAttempts (DefaultNextAttemptDeltaFunc jitter)
              script0 genResult (some t) txIns true pub store0 pending0
              currentHeight).deliveries) := by
  have hdelta : 1 ≤ DefaultNextAttemptDeltaFunc jitter (pi.publishAttempts + 1) :=
    Nat.le_add_right 1 _
  have hproj :
      (sweepRun maxSweepAttempts (DefaultNextAttemptDeltaFunc jitter) script0
          genResult (some t) txIns true pub store0 pending0
          currentHeight).pending =
        (rescheduleInputs maxSweepAttempts (DefaultNextAttemptDeltaFunc jitter)
          currentHeight pending0 txIns).1 ∧
      (sweepRun maxSweepAttempts (DefaultNextAttemptDeltaFunc jitter) script0
          genResult (some t) txIns true pub store0 pending0
          currentHeight).deliveries =
        (rescheduleInputs maxSweepAttempts (DefaultNextAttemptDeltaFunc jitter)
          currentHeight pending0 txIns).2 := by
    rcases script0 with _ | s0 <;> rcases genResult with _ | sg <;>
      rcases hpub with rfl | rfl <;> simp_all [sweepRun, sweepRunAfterScript]
  have hspec := rescheduleFold_spec maxSweepAttempts
    (DefaultNextAttemptDeltaFunc jitter) currentHeight op pi txIns
    (pending0, []) hnd hop hpi
  rw [hproj.1, hproj.2]
  exact ⟨hdelta,
    fun hlt => ⟨hspec.1 hlt, Nat.add_le_add_left hdelta currentHeight⟩,
    fun hge => (hspec.2 hge)⟩

/-- Witness for claim C6: one pending input with one listener, attempt
count reaching the maximum of 1, removed with TooManyAttempts delivered. -/
theorem claim_C6_witness :
    1 ≤ DefaultNextAttemptDeltaFunc (fun _ => 0) 1 ∧
    (0 + 1 < 1 →
      (sweepRun 1 (DefaultNextAttemptDeltaFunc (fun _ => 0)) (some 9) none
          (some 42) [7] true .ok []
          (fun k => if k = 7 then some ⟨[3], 100, 0⟩ else none) 200).pending 7 =
        some { listeners := [3]
               minPublishHeight := 200 + DefaultNextAttemptDeltaFunc (fun _ => 0) 1
               publishAttempts := 0 + 1 } ∧
      200 + 1 ≤ 200 + DefaultNextAttemptDeltaFunc (fun _ => 0) 1) ∧
    (1 ≤ 0 + 1 →
      (sweepRun 1 (DefaultNextAttemptDeltaFunc (fun _ => 0)) (some 9) none
          (some 42) [7] true .ok []
          (fun k => if k = 7 then some ⟨[3], 100, 0⟩ else none) 200).pending 7 =
        none ∧
        ∀ l ∈ [3],
          (l, SweepErr.tooManyAttempts) ∈
            (sweepRun 1 (DefaultNextAttemptDeltaFunc (fun _ => 0)) (some 9)
              none (some 42) [7] true .ok []
              (fun k => if k = 7 then some ⟨[3], 100, 0⟩ else none)
              200).deliveries) :=
  claim_C6_theorem 1 (fun _ => 0) (some 9) none 42 [7] .ok []
    (fun k => if k = 7 then some ⟨[3], 100, 0⟩ else none) 200 7 ⟨[3], 100, 0⟩
    (by simp) (Or.inl rfl) (by decide) (by decide) rfl

/-- Claim C6 counterexample: when PublishTransaction fails with an
unexpected error, sweep returns before the accounting loop, so even
though a publication attempt happened (the publish call is in the
trace), the still-pending input keeps publishAttempts = 0 and its old
minPublishHeight 100 instead of being incremented and rescheduled past
the publish height 200, refuting the claim for that publication
attempt. -/
theorem claim_C6_counterexample :
    (sweepRun 10 (fun _ => 1) (some 9) none (some 42) [7] true (.otherErr 0)
        [] (fun k => if k = 7 then some ⟨[3], 100, 0⟩ else none) 200).trace =
      [SweepEvent.createTx 42, SweepEvent.notifyStore 42,
        SweepEvent.publish 42] ∧
    (sweepRun 10 (fun _ => 1) (some 9) none (some 42) [7] true (.otherErr 0)
        [] (fun k => if k = 7 then some ⟨[3], 100, 0⟩ else none) 200).pending
      7 = some ⟨[3], 100, 0⟩ := by
  exact ⟨rfl, rfl⟩

end Sweep

end LndSpec2Proof
